import Mathlib

/-!
Verification development for the RFX vendor-scoring engine
(source: Sxoring_Engine.py).  The Python code is shallowly embedded:

* JSON values are modelled by the inductive type `JVal`; Python dicts
  become association lists with first-match lookup (JSON objects have
  unique keys, and the code builds its dicts without duplicates).
* Python float arithmetic is modelled by exact rational arithmetic.
* Python `int(...)` truncation is `pyTrunc`; Python `round(x, 2)`
  (round-half-to-even) is `round2`.
* Any Python statement that can raise (ZeroDivisionError, TypeError,
  AttributeError on wrongly-shaped data) is modelled in the `Except`
  monad; a `try/except` in the source becomes a `match` on the
  `Except` value.
-/

unseal Rat.mul Rat.inv Rat.add Rat.sub

inductive JVal : Type where
  | null : JVal
  | bool : Bool → JVal
  | num : ℚ → JVal
  | str : String → JVal
  | arr : List JVal → JVal
  | obj : List (String × JVal) → JVal

/-- First-match lookup in an association list, modelling Python dict access. -/
def lookupJ (k : String) : List (String × JVal) → Option JVal
  | [] => none
  | (k2, v) :: rest => if k2 == k then some v else lookupJ k rest

/-- Membership of a key in an association list, modelling Python `k in d`. -/
def hasKeyB (fs : List (String × JVal)) (k : String) : Bool :=
  fs.any (fun p => p.1 == k)

/-- Python dict assignment `d[k] = v`: replace in place if the key exists,
otherwise append at the end (Python dicts keep insertion order). -/
def setKey (fs : List (String × JVal)) (k : String) (v : JVal) : List (String × JVal) :=
  if hasKeyB fs k then fs.map (fun p => if p.1 == k then (k, v) else p)
  else fs ++ [(k, v)]

/-- Does the character list start with the given run. -/
def startsWithL : List Char → List Char → Bool
  | _, [] => true
  | [], _ :: _ => false
  | a :: as, b :: bs => a == b && startsWithL as bs

/-- Does the first character list contain the second as a contiguous run. -/
def containsRun : List Char → List Char → Bool
  | [], n => n.isEmpty
  | a :: rest, n => startsWithL (a :: rest) n || containsRun rest n

/-- Python substring test `t in s`. -/
def strContains (s t : String) : Bool :=
  containsRun s.data t.data

/-- Python membership of a string in a list of JSON values (`k in l`):
equality holds only against string elements. -/
def jStrMem (l : List JVal) (k : String) : Bool :=
  l.any (fun v => match v with
    | JVal.str t => t == k
    | _ => false)

/-- Python `name.lower().replace(" ", "_")` combined into one character map
(lower-casing a space is a no-op, so the two passes commute into one). -/
def pyNormName (s : String) : String :=
  ⟨s.data.map (fun c => if c == ' ' then '_' else c.toLower)⟩

/-- Floor of a rational in a kernel-computable form (the reduced numerator
floor-divided by the positive denominator). -/
def ratFloor (x : ℚ) : ℤ :=
  Int.fdiv x.num x.den

theorem ratFloor_eq (x : ℚ) : ratFloor x = ⌊x⌋ := by
  rw [Rat.floor_def, ratFloor, Int.fdiv_eq_ediv _ (by exact_mod_cast Nat.zero_le x.den)]

/-- Python `int(x)` on a float: truncation toward zero. -/
def pyTrunc (x : ℚ) : ℤ :=
  Int.tdiv x.num x.den

theorem pyTrunc_eq_floor (x : ℚ) (h : 0 ≤ x) : pyTrunc x = ⌊x⌋ := by
  rw [Rat.floor_def, pyTrunc,
    Int.tdiv_eq_ediv (Rat.num_nonneg.mpr h) (by exact_mod_cast Nat.zero_le x.den)]

/-- Python `round(x)` for the rounding used by `round(_, 2)`:
round half to even. -/
def pyRound (x : ℚ) : ℤ :=
  if x - ratFloor x < 1 / 2 then ratFloor x
  else if 1 / 2 < x - ratFloor x then ratFloor x + 1
  else if ratFloor x % 2 = 0 then ratFloor x else ratFloor x + 1

/-- Python `round(x, 2)`. -/
def round2 (x : ℚ) : ℚ :=
  (pyRound (x * 100) : ℚ) / 100

/-- Python numeric coercion as used in arithmetic: numbers are themselves,
Booleans are 0 or 1 (Python bool is an int subtype); anything else raises
a TypeError when used in arithmetic. -/
def jToNum : JVal → Except String ℚ
  | JVal.num q => Except.ok q
  | JVal.bool b => Except.ok (if b then 1 else 0)
  | _ => Except.error "TypeError: unsupported operand type"

/-- Python `criteria.get("points", dflt)` followed by numeric use:
`criteria` must be a dict or an AttributeError is raised; a present but
non-numeric value raises a TypeError at the first arithmetic use. -/
def getPointsQ (criteria : JVal) (dflt : ℚ) : Except String ℚ :=
  match criteria with
  | JVal.obj fs =>
    match lookupJ "points" fs with
    | none => Except.ok dflt
    | some v => jToNum v
  | _ => Except.error "AttributeError: get on non-dict"

/-- Python `k in data` for the scorers: key membership for dicts, substring
test for strings, element membership for lists; numbers, Booleans and null
are not iterable and raise a TypeError. -/
def jHasKey (data : JVal) (k : String) : Except String Bool :=
  match data with
  | JVal.obj fs => Except.ok (hasKeyB fs k)
  | JVal.str s => Except.ok (strContains s k)
  | JVal.arr l => Except.ok (jStrMem l k)
  | _ => Except.error "TypeError: argument is not iterable"

/-- The fixed detector keys of the technical scorer (source lines 331-334). -/
def techSignals : List String :=
  ["architecture_provided", "scalable_design", "security_focused_architecture",
   "encryption_support", "uptime_sla", "horizontal_scaling"]

/-- The detector set of one technical sub-criterion: its own name together
with the fixed shared signal keys. -/
def detectorSet (c : String) : List String :=
  c :: techSignals

/-- Short-circuit `any(key in data for key in techSignals)`. -/
def anySignalLoop (data : JVal) : List String → Except String Bool
  | [] => Except.ok false
  | k :: ks =>
    match jHasKey data k with
    | Except.error e => Except.error e
    | Except.ok true => Except.ok true
    | Except.ok false => anySignalLoop data ks

/-- The condition `criterion_name in data or any(key in data for key in [...])`. -/
def techCond (data : JVal) (c : String) : Except String Bool :=
  match jHasKey data c with
  | Except.error e => Except.error e
  | Except.ok true => Except.ok true
  | Except.ok false => anySignalLoop data techSignals

/-- Pure form of `techCond` on a dict bucket: some key of the detector set
of the sub-criterion is present. -/
def hasTechSignal (fs : List (String × JVal)) (c : String) : Bool :=
  (detectorSet c).any (hasKeyB fs)

/-- One sub-criterion entry of a category score. -/
structure SubScore where
  earned_points : ℚ
  max_points : ℚ
  percentage : ℚ

/-- A CategoryScoreResult: the dict returned by each category scorer. -/
structure CatResult where
  category_scores : List (String × SubScore)
  total_earned : ℚ
  total_possible : ℚ
  category_percentage : ℚ

/-- The four technical sub-criteria with their fixed fractional splits
(source lines 320-325). -/
def subSplits : List (String × ℚ) :=
  [("solution_architecture", 3 / 10), ("security_compliance", 3 / 10),
   ("performance_sla", 1 / 4), ("scalability", 3 / 20)]

/-- The loop of `calculate_technical_score`: builds the per-sub-criterion
scores and accumulates `total_earned`. -/
def techLoop (q : ℚ) (data : JVal) : List (String × ℚ) → Except String (List (String × SubScore) × ℚ)
  | [] => Except.ok ([], 0)
  | (c, frac) :: rest =>
    let p : ℚ := (pyTrunc (q * frac) : ℤ)
    match techCond data c with
    | Except.error e => Except.error e
    | Except.ok b =>
      let sc : ℚ := (if b then 8 / 10 else 3 / 10) * p
      match techLoop q data rest with
      | Except.error e => Except.error e
      | Except.ok (l, t) =>
        Except.ok ((c, ⟨sc, p, if 0 < p then sc / p * 100 else 0⟩) :: l, sc + t)

/-- calculate_technical_score (source lines 314-352). -/
def calculate_technical_score (criteria data _vendorName : JVal) : Except String CatResult :=
  match getPointsQ criteria 35 with
  | Except.error e => Except.error e
  | Except.ok q =>
    match techLoop q data subSplits with
    | Except.error e => Except.error e
    | Except.ok (l, t) =>
      Except.ok ⟨l, t, q, if 0 < q then t / q * 100 else 0⟩

/-- calculate_financial_score (source lines 354-364).  The percentage
division carries no zero guard, so points = 0 raises ZeroDivisionError. -/
def calculate_financial_score (criteria _data _vendorName : JVal) : Except String CatResult :=
  match getPointsQ criteria 25 with
  | Except.error e => Except.error e
  | Except.ok q =>
    let earned : ℚ := q * (7 / 10)
    if q = 0 then Except.error "ZeroDivisionError: float division by zero"
    else Except.ok ⟨[], earned, q, earned / q * 100⟩

/-- calculate_vendor_experience_score (source lines 366-376); the division
carries no zero guard. -/
def calculate_vendor_experience_score (criteria _data _vendorName : JVal) : Except String CatResult :=
  match getPointsQ criteria 20 with
  | Except.error e => Except.error e
  | Except.ok q =>
    let earned : ℚ := q * (3 / 4)
    if q = 0 then Except.error "ZeroDivisionError: float division by zero"
    else Except.ok ⟨[], earned, q, earned / q * 100⟩

/-- calculate_implementation_score (source lines 378-388); the division
carries no zero guard. -/
def calculate_implementation_score (criteria _data _vendorName : JVal) : Except String CatResult :=
  match getPointsQ criteria 20 with
  | Except.error e => Except.error e
  | Except.ok q =>
    let earned : ℚ := q * (8 / 10)
    if q = 0 then Except.error "ZeroDivisionError: float division by zero"
    else Except.ok ⟨[], earned, q, earned / q * 100⟩

example : calculate_financial_score (JVal.obj [("points", JVal.num 0)]) (JVal.obj []) (JVal.str "V")
    = Except.error "ZeroDivisionError: float division by zero" := rfl

example : calculate_financial_score (JVal.obj [("points", JVal.num 25)]) (JVal.obj []) (JVal.str "V")
    = Except.ok ⟨[], 35 / 2, 25, 70⟩ := by
  unfold calculate_financial_score getPointsQ lookupJ jToNum
  norm_num

/-! ## Rubric normalization (parse_scorecard_from_llm, normalize_scorecard_structure) -/

/-- The default scorecard synthesized for non-JSON input (source lines 49-83). -/
def defaultScorecard : List (String × JVal) :=
  [("technical_capability", JVal.obj
     [("points", JVal.num 35),
      ("criteria", JVal.obj
        [("solution_architecture", JVal.obj [("points", JVal.num 10)]),
         ("security_compliance", JVal.obj [("points", JVal.num 10)]),
         ("performance_sla", JVal.obj [("points", JVal.num 9)]),
         ("scalability", JVal.obj [("points", JVal.num 6)])])]),
   ("cost_effectiveness", JVal.obj
     [("points", JVal.num 25),
      ("criteria", JVal.obj
        [("total_cost_ownership", JVal.obj [("points", JVal.num 10)]),
         ("pricing_model", JVal.obj [("points", JVal.num 9)]),
         ("payment_terms", JVal.obj [("points", JVal.num 6)])])]),
   ("vendor_experience", JVal.obj
     [("points", JVal.num 20),
      ("criteria", JVal.obj
        [("company_experience", JVal.obj [("points", JVal.num 8)]),
         ("project_references", JVal.obj [("points", JVal.num 7)]),
         ("certifications", JVal.obj [("points", JVal.num 5)])])]),
   ("implementation_approach", JVal.obj
     [("points", JVal.num 20),
      ("criteria", JVal.obj
        [("implementation_methodology", JVal.obj [("points", JVal.num 8)]),
         ("timeline", JVal.obj [("points", JVal.num 7)]),
         ("project_management", JVal.obj [("points", JVal.num 5)])])])]

/-- The minimal scorecard returned when normalization raises (source lines 91-96). -/
def minimalScorecard : List (String × JVal) :=
  [("technical_capability", JVal.obj [("points", JVal.num 35)]),
   ("cost_effectiveness", JVal.obj [("points", JVal.num 25)]),
   ("vendor_experience", JVal.obj [("points", JVal.num 20)]),
   ("implementation_approach", JVal.obj [("points", JVal.num 20)])]

/-- The four canonical category names with their default points, in the
iteration order of the `category_mapping` dict (source lines 131-136). -/
def categoryMapping : List (String × ℚ) :=
  [("technical_capability", 35), ("cost_effectiveness", 25),
   ("vendor_experience", 20), ("implementation_approach", 20)]

/-- Classification of a normalized criterion name by substring matching
(source lines 114-123). -/
def classifyName (name : String) : String :=
  if strContains name "technical" || strContains name "solution" then "technical_capability"
  else if strContains name "cost" || strContains name "financial" then "cost_effectiveness"
  else if strContains name "vendor" || strContains name "experience" then "vendor_experience"
  else if strContains name "implementation" then "implementation_approach"
  else name

/-- One iteration of the list-based criteria loop (source lines 110-128).
A non-dict criterion raises at `.get`; a non-string name raises at
`.lower()`. -/
def criteriaLoop : List JVal → List (String × JVal) → Except String (List (String × JVal))
  | [], acc => Except.ok acc
  | c :: rest, acc =>
    match c with
    | JVal.obj cf =>
      match (lookupJ "name" cf).getD (JVal.str "") with
      | JVal.str s =>
        let name := pyNormName s
        let weight := (lookupJ "weight" cf).getD (JVal.num 25)
        let sub := (lookupJ "subcriteria" cf).getD (JVal.obj [])
        criteriaLoop rest
          (setKey acc (classifyName name) (JVal.obj [("points", weight), ("criteria", sub)]))
      | _ => Except.error "AttributeError: lower on non-string"
    | _ => Except.error "AttributeError: get on non-dict"

/-- One key of the direct key-value branch (source lines 138-144).
A kept non-dict value raises a TypeError when the code tries to test or
inject `points` into it, except for strings and lists that happen to
contain `points` (there the membership test succeeds and the value is
kept verbatim). -/
def directEntry (fs : List (String × JVal)) (k : String) (dflt : ℚ) : Except String (String × JVal) :=
  match lookupJ k fs with
  | none => Except.ok (k, JVal.obj [("points", JVal.num dflt)])
  | some (JVal.obj f2) =>
    Except.ok (k, JVal.obj (if hasKeyB f2 "points" then f2 else f2 ++ [("points", JVal.num dflt)]))
  | some (JVal.str s) =>
    if strContains s "points" then Except.ok (k, JVal.str s)
    else Except.error "TypeError: string assignment"
  | some (JVal.arr l) =>
    if jStrMem l "points" then Except.ok (k, JVal.arr l)
    else Except.error "TypeError: list assignment"
  | some _ => Except.error "TypeError: argument is not iterable"

/-- The direct key-value branch: the four canonical keys processed in
dict-literal order; other keys are dropped. -/
def directBranch (fs : List (String × JVal)) : Except String (List (String × JVal)) :=
  match directEntry fs "technical_capability" 35 with
  | Except.error e => Except.error e
  | Except.ok e1 =>
    match directEntry fs "cost_effectiveness" 25 with
    | Except.error e => Except.error e
    | Except.ok e2 =>
      match directEntry fs "vendor_experience" 20 with
      | Except.error e => Except.error e
      | Except.ok e3 =>
        match directEntry fs "implementation_approach" 20 with
        | Except.error e => Except.error e
        | Except.ok e4 => Except.ok [e1, e2, e3, e4]

/-- Dispatch between the criteria-list branch and the direct branch
(source line 108). -/
def dispatchShape (fs : List (String × JVal)) : Except String (List (String × JVal)) :=
  match lookupJ "criteria" fs with
  | some (JVal.arr items) => criteriaLoop items []
  | _ => directBranch fs

/-- Behavior when the unwrapped `scorecard_template` value is a string:
`"criteria" in s` and `key in s` are substring tests, and a hit leads to
string indexing, which raises; otherwise all four defaults are produced. -/
def normalizeStrCase (s : String) : Except String (List (String × JVal)) :=
  if strContains s "criteria" then Except.error "TypeError: string indices"
  else if (categoryMapping.map Prod.fst).any (strContains s) then
    Except.error "TypeError: string indices"
  else Except.ok minimalScorecard

/-- Behavior when the unwrapped `scorecard_template` value is a list:
membership hits lead to list indexing by a string, which raises;
otherwise all four defaults are produced. -/
def normalizeArrCase (l : List JVal) : Except String (List (String × JVal)) :=
  if jStrMem l "criteria" then Except.error "TypeError: list indices"
  else if (categoryMapping.map Prod.fst).any (jStrMem l) then
    Except.error "TypeError: list indices"
  else Except.ok minimalScorecard

/-- normalize_scorecard_structure (source lines 98-146), including the
`scorecard_template` unwrapping. -/
def normalize_scorecard_structure (fs0 : List (String × JVal)) : Except String (List (String × JVal)) :=
  match lookupJ "scorecard_template" fs0 with
  | some (JVal.obj fs) => dispatchShape fs
  | some (JVal.str s) => normalizeStrCase s
  | some (JVal.arr l) => normalizeArrCase l
  | some _ => Except.error "TypeError: argument is not iterable"
  | none => dispatchShape fs0

/-- parse_scorecard_from_llm (source lines 28-96).  The input is the parse
outcome of the raw LLM text: `some fields` when the text starts with a
brace and parses as a JSON object, `none` otherwise (non-JSON text, or a
JSONDecodeError, both fall through to the default scorecard).  The
enclosing try/except turns any exception from normalization into the
minimal scorecard. -/
def parse_scorecard_from_llm (input : Option (List (String × JVal))) : List (String × JVal) :=
  match input with
  | none => defaultScorecard
  | some fs =>
    match normalize_scorecard_structure fs with
    | Except.ok r => r
    | Except.error _ => minimalScorecard

example :
    parse_scorecard_from_llm
      (some [("criteria", JVal.arr [JVal.obj [("name", JVal.str "Technical Evaluation"), ("weight", JVal.num 40)]])])
    = [("technical_capability", JVal.obj [("points", JVal.num 40), ("criteria", JVal.obj [])])] := rfl

example : parse_scorecard_from_llm (some [("criteria", JVal.arr [])]) = [] := rfl

/-! ## Vendor data loading and the mock dataset -/

/-- create_mock_vendor_data (source lines 178-300). -/
def create_mock_vendor_data : List (String × JVal) :=
  [("status", JVal.str "success"),
   ("vendors", JVal.arr
     [JVal.obj
       [("vendor_name", JVal.str "Cyberguard"),
        ("vendor_folder", JVal.str "Cyberguard"),
        ("extraction_summary", JVal.obj
          [("features_extracted", JVal.bool true),
           ("document_length", JVal.num 1000),
           ("extraction_complete", JVal.bool true)]),
        ("technical_data", JVal.obj
          [("architecture_provided", JVal.bool true),
           ("scalable_design", JVal.bool true),
           ("integration_capabilities", JVal.bool true),
           ("technology_stack", JVal.bool true),
           ("security_focused_architecture", JVal.bool true),
           ("encryption_support", JVal.bool true),
           ("compliance_framework", JVal.bool true),
           ("certifications", JVal.arr [JVal.str "ISO27001", JVal.str "SOC2", JVal.str "PCI"]),
           ("uptime_sla", JVal.str "99.9%"),
           ("response_time", JVal.str "< 100ms"),
           ("performance_monitoring", JVal.bool true),
           ("horizontal_scaling", JVal.bool true),
           ("auto_scaling", JVal.bool true)]),
        ("financial_data", JVal.obj
          [("tco_3year", JVal.str "500000"),
           ("cost_breakdown_provided", JVal.bool true),
           ("transparent_pricing", JVal.bool true),
           ("pricing_model", JVal.str "subscription"),
           ("volume_discounts", JVal.bool true),
           ("payment_terms", JVal.str "net 30"),
           ("milestone_payments", JVal.bool true),
           ("warranty_included", JVal.bool true)]),
        ("vendor_data", JVal.obj
          [("years_in_business", JVal.str "15"),
           ("industry_expertise", JVal.bool true),
           ("similar_projects", JVal.str "10"),
           ("references", JVal.arr [JVal.str "Company A", JVal.str "Company B", JVal.str "Company C"]),
           ("reference_quality", JVal.bool true),
           ("recent_projects", JVal.bool true),
           ("certifications", JVal.arr
             [JVal.str "ISO27001", JVal.str "SOC2", JVal.str "PCI", JVal.str "CISSP", JVal.str "CISM"]),
           ("relevant_certifications", JVal.bool true)]),
        ("implementation_data", JVal.obj
          [("methodology", JVal.str "agile"),
           ("detailed_methodology", JVal.bool true),
           ("risk_management", JVal.bool true),
           ("quality_assurance", JVal.bool true),
           ("implementation_timeline", JVal.str "12"),
           ("realistic_timeline", JVal.bool true),
           ("milestone_based", JVal.bool true),
           ("dedicated_pm", JVal.bool true),
           ("project_tracking", JVal.bool true),
           ("regular_reporting", JVal.bool true),
           ("stakeholder_management", JVal.bool true)])],
      JVal.obj
       [("vendor_name", JVal.str "SecureNet"),
        ("vendor_folder", JVal.str "SecureNet"),
        ("extraction_summary", JVal.obj
          [("features_extracted", JVal.bool true),
           ("document_length", JVal.num 1200),
           ("extraction_complete", JVal.bool true)]),
        ("technical_data", JVal.obj
          [("architecture_provided", JVal.bool true),
           ("scalable_design", JVal.bool true),
           ("integration_capabilities", JVal.bool true),
           ("technology_stack", JVal.bool true),
           ("network_architecture", JVal.bool true),
           ("encryption_support", JVal.bool true),
           ("compliance_framework", JVal.bool true),
           ("certifications", JVal.arr [JVal.str "ISO27001", JVal.str "CISSP"]),
           ("uptime_sla", JVal.str "99.9%"),
           ("response_time", JVal.str "< 200ms"),
           ("performance_monitoring", JVal.bool true),
           ("horizontal_scaling", JVal.bool true),
           ("vertical_scaling", JVal.bool true)]),
        ("financial_data", JVal.obj
          [("tco_3year", JVal.str "450000"),
           ("cost_breakdown_provided", JVal.bool true),
           ("transparent_pricing", JVal.bool true),
           ("pricing_model", JVal.str "flexible saas"),
           ("flexible_pricing", JVal.bool true),
           ("payment_terms", JVal.str "net 30"),
           ("milestone_payments", JVal.bool true),
           ("warranty_included", JVal.bool true)]),
        ("vendor_data", JVal.obj
          [("years_in_business", JVal.str "12"),
           ("industry_expertise", JVal.bool true),
           ("similar_projects", JVal.str "8"),
           ("references", JVal.arr [JVal.str "Enterprise X", JVal.str "Corp Y"]),
           ("reference_quality", JVal.bool true),
           ("recent_projects", JVal.bool true),
           ("certifications", JVal.arr [JVal.str "ISO27001", JVal.str "CISSP", JVal.str "CCSP"]),
           ("relevant_certifications", JVal.bool true)]),
        ("implementation_data", JVal.obj
          [("methodology", JVal.str "agile devops"),
           ("detailed_methodology", JVal.bool true),
           ("risk_management", JVal.bool true),
           ("quality_assurance", JVal.bool true),
           ("implementation_timeline", JVal.str "10"),
           ("realistic_timeline", JVal.bool true),
           ("milestone_based", JVal.bool true),
           ("dedicated_pm", JVal.bool true),
           ("project_tracking", JVal.bool true),
           ("regular_reporting", JVal.bool true),
           ("stakeholder_management", JVal.bool true)])]])]

/-- The possible shapes of the `extracted_data` argument of the engine, by
the branch of parse_vendor_data_safely they reach: an already-structured
dict, an empty or missing string, a string parsing to a JSON object, a
string starting with a brace that fails to parse, or other text (which
goes straight to the mock dataset). -/
inductive VendorPayload : Type where
  | pdict (fs : List (String × JVal)) : VendorPayload
  | empty : VendorPayload
  | jsonObj (fs : List (String × JVal)) : VendorPayload
  | jsonBad (msg : String) : VendorPayload
  | text (s : String) : VendorPayload

/-- parse_vendor_data_safely (source lines 148-176). -/
def parse_vendor_data_safely : VendorPayload → List (String × JVal)
  | VendorPayload.pdict fs => fs
  | VendorPayload.empty =>
    [("status", JVal.str "error"), ("message", JVal.str "No vendor data provided")]
  | VendorPayload.jsonObj fs => fs
  | VendorPayload.jsonBad m =>
    [("status", JVal.str "error"), ("message", JVal.str ("Invalid JSON: " ++ m))]
  | VendorPayload.text _ => create_mock_vendor_data

/-! ## Per-vendor scoring (score_single_vendor) -/

/-- The four category computations of score_single_vendor in source order
(source lines 395-417): the first exception aborts the chain. -/
def scoreInner (scorecard fs : List (String × JVal)) : Except String (CatResult × CatResult × CatResult × CatResult) :=
  let vn := (lookupJ "vendor_name" fs).getD (JVal.str "Unknown")
  match calculate_technical_score ((lookupJ "technical_capability" scorecard).getD (JVal.obj []))
      ((lookupJ "technical_data" fs).getD (JVal.obj [])) vn with
  | Except.error e => Except.error e
  | Except.ok t =>
    match calculate_financial_score ((lookupJ "cost_effectiveness" scorecard).getD (JVal.obj []))
        ((lookupJ "financial_data" fs).getD (JVal.obj [])) vn with
    | Except.error e => Except.error e
    | Except.ok f =>
      match calculate_vendor_experience_score ((lookupJ "vendor_experience" scorecard).getD (JVal.obj []))
          ((lookupJ "vendor_data" fs).getD (JVal.obj [])) vn with
      | Except.error e => Except.error e
      | Except.ok ex =>
        match calculate_implementation_score ((lookupJ "implementation_approach" scorecard).getD (JVal.obj []))
            ((lookupJ "implementation_data" fs).getD (JVal.obj [])) vn with
        | Except.error e => Except.error e
        | Except.ok im => Except.ok (t, f, ex, im)

/-- The grade thresholds of source line 431. -/
def pyGrade (pct : ℚ) : String :=
  if 90 ≤ pct then "A" else if 80 ≤ pct then "B" else "C"

/-- The VendorScore dict produced per vendor.  The success record carries
no message and the error record carries no category breakdown, matching
the two dict literals of the source. -/
structure VendorScoreR where
  vendor_name : JVal
  status : String
  message : Option String
  total_score : ℚ
  total_possible : ℚ
  overall_percentage : ℚ
  grade : String
  category_breakdown : Option (CatResult × CatResult × CatResult × CatResult)

/-- score_single_vendor (source lines 390-459). -/
def score_single_vendor (scorecard fs : List (String × JVal)) : VendorScoreR :=
  let vn := (lookupJ "vendor_name" fs).getD (JVal.str "Unknown")
  match scoreInner scorecard fs with
  | Except.ok (t, f, ex, im) =>
    let te := t.total_earned + f.total_earned + ex.total_earned + im.total_earned
    let tp := t.total_possible + f.total_possible + ex.total_possible + im.total_possible
    let pct := if 0 < tp then te / tp * 100 else 0
    ⟨vn, "success", none, round2 te, tp, round2 pct, pyGrade pct, some (t, f, ex, im)⟩
  | Except.error e =>
    ⟨vn, "error", some ("Scoring failed: " ++ e), 0, 100, 0, "F", none⟩

/-! ## Ranking and the engine entry point -/

/-- Insertion step of a stable descending sort by total_score: the inserted
element comes from earlier in the input than everything in the target
list, so it goes in front of the first element whose score does not
exceed it.  This is the specification of the Python stable in-place
`list.sort(key=..., reverse=True)` (Timsort is documented stable, and
`reverse=True` does not reorder equal keys). -/
def insertDesc (x : VendorScoreR) : List VendorScoreR → List VendorScoreR
  | [] => [x]
  | y :: ys => if y.total_score ≤ x.total_score then x :: y :: ys else y :: insertDesc x ys

/-- Stable descending sort by total_score. -/
def sortDesc (l : List VendorScoreR) : List VendorScoreR :=
  l.foldr insertDesc []

/-- The filter to successfully scored vendors (source line 499). -/
def successFilter (l : List VendorScoreR) : List VendorScoreR :=
  l.filter (fun v => v.status == "success")

/-- The executive_summary dict of the assessment (source lines 505-512). -/
structure ExecSummary where
  recommended_vendor : JVal
  winning_score : ℚ
  winning_percentage : ℚ
  confidence_level : String

/-- The success result dict of the engine (source lines 514-527), with the
constant strengths and weaknesses fields elided. -/
structure EngineOk where
  vendor_scores : List VendorScoreR
  executive_summary : ExecSummary
  scorecard_structure : List (String × JVal)
  total_possible_points : ℚ
  evaluation_complete : Bool
  vendors_evaluated : Nat
  winner : JVal

/-- The run result: either the success dict or one of the two error dicts
(which differ only in fields no claim touches). -/
inductive EngineResult : Type where
  | ok (r : EngineOk) : EngineResult
  | err (message : String) : EngineResult

def statusOf : EngineResult → String
  | EngineResult.ok _ => "success"
  | EngineResult.err _ => "error"

def vendorScoresOf : EngineResult → List VendorScoreR
  | EngineResult.ok r => r.vendor_scores
  | EngineResult.err _ => []

def recommendedOf : EngineResult → Option JVal
  | EngineResult.ok r => some r.executive_summary.recommended_vendor
  | EngineResult.err _ => none

def confidenceOf : EngineResult → Option String
  | EngineResult.ok r => some r.executive_summary.confidence_level
  | EngineResult.err _ => none

/-- vendor_data.get("vendors", []) followed by the for-loop: a list value
iterates its elements; an empty string or empty dict iterates nothing; a
non-empty string or dict iterates strings whose `.get` raises; numbers,
Booleans and null are not iterable. -/
def getVendorsList (fs : List (String × JVal)) : Except String (List JVal) :=
  match lookupJ "vendors" fs with
  | none => Except.ok []
  | some (JVal.arr l) => Except.ok l
  | some (JVal.str s) =>
    if s.data.isEmpty then Except.ok [] else Except.error "AttributeError: get on non-dict"
  | some (JVal.obj f2) =>
    if f2.isEmpty then Except.ok [] else Except.error "AttributeError: get on non-dict"
  | some _ => Except.error "TypeError: object is not iterable"

/-- The scoring loop of the engine (source lines 487-496): each vendor must
be a dict (the `.get` on line 489 precedes any try) and is then scored. -/
def scoreVendorsList (scorecard : List (String × JVal)) : List JVal → Except String (List VendorScoreR)
  | [] => Except.ok []
  | v :: rest =>
    match v with
    | JVal.obj fs =>
      match scoreVendorsList scorecard rest with
      | Except.error e => Except.error e
      | Except.ok rs => Except.ok (score_single_vendor scorecard fs :: rs)
    | _ => Except.error "AttributeError: get on non-dict"

/-- sum(cat.get("points", 0) for cat in scorecard.values()) of source
line 520: every category value must be a dict and every present points
value must be numeric. -/
def sumPointsJ : List (String × JVal) → Except String ℚ
  | [] => Except.ok 0
  | (_, JVal.obj f2) :: rest =>
    match (match lookupJ "points" f2 with
           | none => Except.ok (0 : ℚ)
           | some v => jToNum v) with
    | Except.error e => Except.error e
    | Except.ok p =>
      match sumPointsJ rest with
      | Except.error e => Except.error e
      | Except.ok s => Except.ok (p + s)
  | (_, _) :: _ => Except.error "AttributeError: get on non-dict"

/-- Assembly of the assessment and result dicts (source lines 498-527):
filter to success, stable descending sort, first element as winner. -/
def buildResult (scorecard : List (String × JVal)) (scores : List VendorScoreR) (tpp : ℚ) : EngineOk :=
  match sortDesc (successFilter scores) with
  | [] =>
    ⟨scores, ⟨JVal.str "No winner", 0, 0, "Medium"⟩, scorecard, tpp, true, 0, JVal.str "None"⟩
  | w :: rest =>
    ⟨scores,
     ⟨w.vendor_name, w.total_score, w.overall_percentage,
      if 80 ≤ w.overall_percentage then "High" else "Medium"⟩,
     scorecard, tpp, true, (w :: rest).length, w.vendor_name⟩

/-- The substitution of the mock dataset when the loader reported an error
status (source lines 478-481). -/
def effectiveVendorData (payload : VendorPayload) : List (String × JVal) :=
  let vd0 := parse_vendor_data_safely payload
  match lookupJ "status" vd0 with
  | some (JVal.str s) => if s == "error" then create_mock_vendor_data else vd0
  | _ => vd0

/-- The body of the main try block after vendor-data loading (source lines
483-527); the first exception aborts it. -/
def engineBody (scorecard : List (String × JVal)) (payload : VendorPayload) : Except String EngineOk :=
  match getVendorsList (effectiveVendorData payload) with
  | Except.error e => Except.error e
  | Except.ok vl =>
    match scoreVendorsList scorecard vl with
    | Except.error e => Except.error e
    | Except.ok scores =>
      match sumPointsJ scorecard with
      | Except.error e => Except.error e
      | Except.ok tpp => Except.ok (buildResult scorecard scores tpp)

/-- Sxoring_Engine (source lines 7-539): the public entry point.  The
scorecard_template argument is modelled by its JSON parse outcome, like
the input of parse_scorecard_from_llm.  An empty parsed scorecard takes
the early error return of lines 469-474; any exception of the body is
caught by the outer handler of lines 532-539. -/
def Sxoring_Engine (template : Option (List (String × JVal))) (payload : VendorPayload) : EngineResult :=
  let scorecard := parse_scorecard_from_llm template
  if scorecard.isEmpty then
    EngineResult.err "Failed to parse scorecard template from Scorecard_Builder"
  else
    match engineBody scorecard payload with
    | Except.ok r => EngineResult.ok r
    | Except.error e => EngineResult.err ("Complete evaluation failed: " ++ e)

example : statusOf (Sxoring_Engine none VendorPayload.empty) = "success" := rfl

example : (vendorScoresOf (Sxoring_Engine none VendorPayload.empty)).map (fun v => v.total_score)
    = [749 / 10, 749 / 10] := by decide

example : Sxoring_Engine none VendorPayload.empty
    = Sxoring_Engine none (VendorPayload.pdict create_mock_vendor_data) := rfl

/-! ## Properties of the stable descending sort -/

theorem insertDesc_filter_key (x : VendorScoreR) (q : ℚ) :
    ∀ s : List VendorScoreR,
      (insertDesc x s).filter (fun v => v.total_score == q)
        = ((x :: s).filter (fun v => v.total_score == q)) := by
  intro s
  induction s with
  | nil => rfl
  | cons y ys ih =>
    by_cases h : y.total_score ≤ x.total_score
    · simp only [insertDesc, if_pos h]
    · simp only [insertDesc, if_neg h]
      by_cases hy : y.total_score == q
      · by_cases hx : x.total_score == q
        · exact absurd (le_of_eq ((beq_iff_eq.mp hy).trans (beq_iff_eq.mp hx).symm)) h
        · simp [List.filter_cons, hy, hx, ih]
      · simp [List.filter_cons, hy, ih]

theorem sortDesc_filter_key (l : List VendorScoreR) (q : ℚ) :
    (sortDesc l).filter (fun v => v.total_score == q)
      = l.filter (fun v => v.total_score == q) := by
  induction l with
  | nil => rfl
  | cons a l ih =>
    show (insertDesc a (sortDesc l)).filter _ = _
    rw [insertDesc_filter_key]
    simp only [List.filter_cons, ih]

theorem mem_insertDesc (a x : VendorScoreR) :
    ∀ s : List VendorScoreR, a ∈ insertDesc x s ↔ a = x ∨ a ∈ s := by
  intro s
  induction s with
  | nil => simp [insertDesc]
  | cons y ys ih =>
    by_cases h : y.total_score ≤ x.total_score
    · simp [insertDesc, if_pos h]
    · simp only [insertDesc, if_neg h, List.mem_cons, ih]
      tauto

theorem mem_sortDesc (a : VendorScoreR) (l : List VendorScoreR) :
    a ∈ sortDesc l ↔ a ∈ l := by
  induction l with
  | nil => exact Iff.rfl
  | cons x l ih =>
    show a ∈ insertDesc x (sortDesc l) ↔ _
    rw [mem_insertDesc, ih]
    simp

theorem pairwise_insertDesc (x : VendorScoreR) :
    ∀ s : List VendorScoreR,
      List.Pairwise (fun a b => b.total_score ≤ a.total_score) s →
      List.Pairwise (fun a b => b.total_score ≤ a.total_score) (insertDesc x s) := by
  intro s
  induction s with
  | nil => intro _; simp [insertDesc]
  | cons y ys ih =>
    intro h
    by_cases hc : y.total_score ≤ x.total_score
    · simp only [insertDesc, if_pos hc]
      refine List.Pairwise.cons ?_ h
      intro z hz
      rcases List.mem_cons.mp hz with rfl | hz
      · exact hc
      · exact le_trans (List.rel_of_pairwise_cons h hz) hc
    · simp only [insertDesc, if_neg hc]
      refine List.Pairwise.cons ?_ (ih h.tail)
      intro z hz
      rcases (mem_insertDesc z x ys).mp hz with rfl | hz
      · exact le_of_lt (lt_of_not_le hc)
      · exact List.rel_of_pairwise_cons h hz

theorem pairwise_sortDesc (l : List VendorScoreR) :
    List.Pairwise (fun a b => b.total_score ≤ a.total_score) (sortDesc l) := by
  induction l with
  | nil => exact List.Pairwise.nil
  | cons x l ih => exact pairwise_insertDesc x (sortDesc l) ih

/-! ## Evaluation lemmas for the scorers -/

theorem anySignalLoop_obj (fs : List (String × JVal)) :
    ∀ ks : List String, anySignalLoop (JVal.obj fs) ks = Except.ok (ks.any (hasKeyB fs)) := by
  intro ks
  induction ks with
  | nil => rfl
  | cons k ks ih =>
    by_cases h : hasKeyB fs k
    · simp [anySignalLoop, jHasKey, h]
    · simp [anySignalLoop, jHasKey, h, ih]

theorem techCond_obj (fs : List (String × JVal)) (c : String) :
    techCond (JVal.obj fs) c = Except.ok (hasTechSignal fs c) := by
  by_cases h : hasKeyB fs c
  · simp [techCond, jHasKey, h, hasTechSignal, detectorSet]
  · simp [techCond, jHasKey, h, anySignalLoop_obj, hasTechSignal, detectorSet]

/-- The tier factor of one technical sub-criterion on a dict bucket. -/
def techTier (fs : List (String × JVal)) (c : String) : ℚ :=
  if hasTechSignal fs c then 8 / 10 else 3 / 10

/-- The SubScore entry produced for one technical sub-criterion. -/
def techSub (q : ℚ) (fs : List (String × JVal)) (cf : String × ℚ) : SubScore :=
  ⟨techTier fs cf.1 * (pyTrunc (q * cf.2) : ℤ), (pyTrunc (q * cf.2) : ℤ),
   if 0 < ((pyTrunc (q * cf.2) : ℤ) : ℚ) then
     techTier fs cf.1 * (pyTrunc (q * cf.2) : ℤ) / (pyTrunc (q * cf.2) : ℤ) * 100
   else 0⟩

theorem techLoop_obj (q : ℚ) (fs : List (String × JVal)) :
    ∀ splits : List (String × ℚ),
      techLoop q (JVal.obj fs) splits
        = Except.ok (splits.map (fun cf => (cf.1, techSub q fs cf)),
            (splits.map (fun cf => techTier fs cf.1 * (pyTrunc (q * cf.2) : ℤ))).sum) := by
  intro splits
  induction splits with
  | nil => rfl
  | cons cf rest ih =>
    rcases cf with ⟨c, frac⟩
    simp only [techLoop, techCond_obj, ih, List.map_cons, List.sum_cons, techSub, techTier]

theorem calculate_technical_score_eval (criteria : JVal) (q : ℚ)
    (hq : getPointsQ criteria 35 = Except.ok q) (fs : List (String × JVal)) (vn : JVal) :
    calculate_technical_score criteria (JVal.obj fs) vn
      = Except.ok ⟨subSplits.map (fun cf => (cf.1, techSub q fs cf)),
          (subSplits.map (fun cf => techTier fs cf.1 * (pyTrunc (q * cf.2) : ℤ))).sum,
          q,
          if 0 < q then
            (subSplits.map (fun cf => techTier fs cf.1 * (pyTrunc (q * cf.2) : ℤ))).sum / q * 100
          else 0⟩ := by
  simp only [calculate_technical_score, hq, techLoop_obj]

theorem calculate_financial_score_eval (criteria : JVal) (q : ℚ)
    (hq : getPointsQ criteria 25 = Except.ok q) (hq0 : q ≠ 0) (d vn : JVal) :
    calculate_financial_score criteria d vn
      = Except.ok ⟨[], q * (7 / 10), q, q * (7 / 10) / q * 100⟩ := by
  simp only [calculate_financial_score, hq, if_neg hq0]

theorem calculate_financial_score_zero (criteria : JVal)
    (hq : getPointsQ criteria 25 = Except.ok 0) (d vn : JVal) :
    calculate_financial_score criteria d vn
      = Except.error "ZeroDivisionError: float division by zero" := by
  simp [calculate_financial_score, hq]

theorem calculate_vendor_experience_score_eval (criteria : JVal) (q : ℚ)
    (hq : getPointsQ criteria 20 = Except.ok q) (hq0 : q ≠ 0) (d vn : JVal) :
    calculate_vendor_experience_score criteria d vn
      = Except.ok ⟨[], q * (3 / 4), q, q * (3 / 4) / q * 100⟩ := by
  simp only [calculate_vendor_experience_score, hq, if_neg hq0]

theorem calculate_vendor_experience_score_zero (criteria : JVal)
    (hq : getPointsQ criteria 20 = Except.ok 0) (d vn : JVal) :
    calculate_vendor_experience_score criteria d vn
      = Except.error "ZeroDivisionError: float division by zero" := by
  simp [calculate_vendor_experience_score, hq]

theorem calculate_implementation_score_eval (criteria : JVal) (q : ℚ)
    (hq : getPointsQ criteria 20 = Except.ok q) (hq0 : q ≠ 0) (d vn : JVal) :
    calculate_implementation_score criteria d vn
      = Except.ok ⟨[], q * (8 / 10), q, q * (8 / 10) / q * 100⟩ := by
  simp only [calculate_implementation_score, hq, if_neg hq0]

theorem calculate_implementation_score_zero (criteria : JVal)
    (hq : getPointsQ criteria 20 = Except.ok 0) (d vn : JVal) :
    calculate_implementation_score criteria d vn
      = Except.error "ZeroDivisionError: float division by zero" := by
  simp [calculate_implementation_score, hq]

/-! ## Bounds for the rounding helpers -/

theorem pyRound_bounds (x : ℚ) : ⌊x⌋ ≤ pyRound x ∧ pyRound x ≤ ⌊x⌋ + 1 := by
  unfold pyRound
  rw [ratFloor_eq]
  split_ifs <;> omega

theorem pyRound_mono {a b : ℚ} (h : a ≤ b) : pyRound a ≤ pyRound b := by
  rcases lt_or_eq_of_le (Int.floor_le_floor h) with hf | hf
  · have ha := pyRound_bounds a
    have hb := pyRound_bounds b
    omega
  · unfold pyRound
    rw [ratFloor_eq, ratFloor_eq, ← hf]
    have hfl : (⌊a⌋ : ℚ) ≤ a := Int.floor_le a
    split_ifs with h1 h2 h3 h4 h5 h6 h7 <;> try omega
    all_goals exfalso; linarith

theorem round2_mono {a b : ℚ} (h : a ≤ b) : round2 a ≤ round2 b := by
  unfold round2
  have h1 : a * 100 ≤ b * 100 := by linarith
  have h2 : ((pyRound (a * 100) : ℤ) : ℚ) ≤ ((pyRound (b * 100) : ℤ) : ℚ) := by
    exact_mod_cast pyRound_mono h1
  linarith

/-! ## Inversion lemmas for the engine assembly -/

theorem buildResult_vendor_scores (sc : List (String × JVal)) (scores : List VendorScoreR) (tpp : ℚ) :
    (buildResult sc scores tpp).vendor_scores = scores := by
  cases hs : sortDesc (successFilter scores) <;> simp [buildResult, hs]

theorem buildResult_exec (sc : List (String × JVal)) (scores : List VendorScoreR) (tpp : ℚ) :
    (buildResult sc scores tpp).executive_summary
      = (match (sortDesc (successFilter scores)).head? with
        | none => ⟨JVal.str "No winner", 0, 0, "Medium"⟩
        | some w => ⟨w.vendor_name, w.total_score, w.overall_percentage,
            if 80 ≤ w.overall_percentage then "High" else "Medium"⟩) := by
  cases hs : sortDesc (successFilter scores) <;> simp [buildResult, hs]

theorem buildResult_winner (sc : List (String × JVal)) (scores : List VendorScoreR) (tpp : ℚ) :
    (buildResult sc scores tpp).winner
      = (match (sortDesc (successFilter scores)).head? with
        | none => JVal.str "None"
        | some w => w.vendor_name) := by
  cases hs : sortDesc (successFilter scores) <;> simp [buildResult, hs]

theorem scoreVendorsList_append (sc : List (String × JVal)) :
    ∀ (pre : List JVal) (post : List JVal) (as bs : List VendorScoreR)
      (fs : List (String × JVal)),
      scoreVendorsList sc pre = Except.ok as →
      scoreVendorsList sc post = Except.ok bs →
      scoreVendorsList sc (pre ++ JVal.obj fs :: post)
        = Except.ok (as ++ score_single_vendor sc fs :: bs) := by
  intro pre
  induction pre with
  | nil =>
    intro post as bs fs hpre hpost
    have : as = [] := by
      simpa [scoreVendorsList] using hpre.symm
    subst this
    simp [scoreVendorsList, hpost]
  | cons v rest ih =>
    intro post as bs fs hpre hpost
    cases v with
    | obj vfs =>
      rcases hr : scoreVendorsList sc rest with e | rs
      · rw [scoreVendorsList, hr] at hpre
        exact absurd hpre (by simp)
      · rw [scoreVendorsList, hr] at hpre
        have : as = score_single_vendor sc vfs :: rs := by
          simpa using hpre.symm
        subst this
        have hstep := ih post rs bs fs hr hpost
        simp [scoreVendorsList, hstep]
    | null => exact absurd hpre (by simp [scoreVendorsList])
    | bool b => exact absurd hpre (by simp [scoreVendorsList])
    | num q => exact absurd hpre (by simp [scoreVendorsList])
    | str s => exact absurd hpre (by simp [scoreVendorsList])
    | arr l => exact absurd hpre (by simp [scoreVendorsList])

theorem scoreVendorsList_mem (sc : List (String × JVal)) :
    ∀ (vl : List JVal) (scores : List VendorScoreR),
      scoreVendorsList sc vl = Except.ok scores →
      ∀ w ∈ scores, ∃ fs : List (String × JVal), w = score_single_vendor sc fs := by
  intro vl
  induction vl with
  | nil =>
    intro scores h w hw
    have : scores = [] := by simpa [scoreVendorsList] using h.symm
    subst this
    exact absurd hw (by simp)
  | cons v rest ih =>
    intro scores h w hw
    cases v with
    | obj vfs =>
      rcases hr : scoreVendorsList sc rest with e | rs
      · rw [scoreVendorsList, hr] at h
        exact absurd h (by simp)
      · rw [scoreVendorsList, hr] at h
        have : scores = score_single_vendor sc vfs :: rs := by simpa using h.symm
        subst this
        rcases List.mem_cons.mp hw with rfl | hw2
        · exact ⟨vfs, rfl⟩
        · exact ih rs hr w hw2
    | null => exact absurd h (by simp [scoreVendorsList])
    | bool b => exact absurd h (by simp [scoreVendorsList])
    | num q => exact absurd h (by simp [scoreVendorsList])
    | str s => exact absurd h (by simp [scoreVendorsList])
    | arr l => exact absurd h (by simp [scoreVendorsList])

theorem engineBody_ok (sc : List (String × JVal)) (d : VendorPayload) (r : EngineOk)
    (h : engineBody sc d = Except.ok r) :
    ∃ (vl : List JVal) (scores : List VendorScoreR) (tpp : ℚ),
      scoreVendorsList sc vl = Except.ok scores ∧ r = buildResult sc scores tpp := by
  unfold engineBody at h
  rcases h1 : getVendorsList (effectiveVendorData d) with e | vl
  · rw [h1] at h; exact absurd h (by simp)
  · rw [h1] at h
    dsimp only at h
    rcases h2 : scoreVendorsList sc vl with e | scores
    · rw [h2] at h; exact absurd h (by simp)
    · rw [h2] at h
      dsimp only at h
      rcases h3 : sumPointsJ sc with e | tpp
      · rw [h3] at h; exact absurd h (by simp)
      · rw [h3] at h
        dsimp only at h
        refine ⟨vl, scores, tpp, h2, ?_⟩
        simpa using h.symm

theorem Sxoring_Engine_ok (t : Option (List (String × JVal))) (d : VendorPayload) (r : EngineOk)
    (h : Sxoring_Engine t d = EngineResult.ok r) :
    engineBody (parse_scorecard_from_llm t) d = Except.ok r := by
  unfold Sxoring_Engine at h
  by_cases he : (parse_scorecard_from_llm t).isEmpty
  · rw [if_pos he] at h; exact absurd h (by simp)
  · rw [if_neg he] at h
    rcases hb : engineBody (parse_scorecard_from_llm t) d with e | r2
    · rw [hb] at h; exact absurd h (by simp)
    · rw [hb] at h
      have h2 : r2 = r := by simpa using h
      rw [h2]

/-! ## Scoring under the default scorecard -/

theorem scoreInner_default_err (fs : List (String × JVal)) (e : String)
    (h : techLoop 35 ((lookupJ "technical_data" fs).getD (JVal.obj [])) subSplits
      = Except.error e) :
    scoreInner defaultScorecard fs = Except.error e := by
  have hcts : calculate_technical_score
      ((lookupJ "technical_capability" defaultScorecard).getD (JVal.obj []))
      ((lookupJ "technical_data" fs).getD (JVal.obj []))
      ((lookupJ "vendor_name" fs).getD (JVal.str "Unknown")) = Except.error e := by
    unfold calculate_technical_score
    rw [show getPointsQ ((lookupJ "technical_capability" defaultScorecard).getD (JVal.obj [])) 35
        = Except.ok 35 from rfl]
    dsimp only
    rw [h]
  unfold scoreInner
  dsimp only
  rw [hcts]

theorem scoreInner_default_ok (fs : List (String × JVal)) (l : List (String × SubScore)) (t : ℚ)
    (h : techLoop 35 ((lookupJ "technical_data" fs).getD (JVal.obj [])) subSplits
      = Except.ok (l, t)) :
    scoreInner defaultScorecard fs
      = Except.ok (⟨l, t, 35, t / 35 * 100⟩, ⟨[], 35 / 2, 25, 70⟩,
          ⟨[], 15, 20, 75⟩, ⟨[], 16, 20, 80⟩) := by
  have hcts : calculate_technical_score
      ((lookupJ "technical_capability" defaultScorecard).getD (JVal.obj []))
      ((lookupJ "technical_data" fs).getD (JVal.obj []))
      ((lookupJ "vendor_name" fs).getD (JVal.str "Unknown"))
      = Except.ok ⟨l, t, 35, if 0 < (35 : ℚ) then t / 35 * 100 else 0⟩ := by
    unfold calculate_technical_score
    rw [show getPointsQ ((lookupJ "technical_capability" defaultScorecard).getD (JVal.obj [])) 35
        = Except.ok 35 from rfl]
    dsimp only
    rw [h]
  rw [if_pos (by norm_num : (0 : ℚ) < 35)] at hcts
  unfold scoreInner
  dsimp only
  rw [hcts]
  rfl

theorem techLoop_bound (q : ℚ) (data : JVal) (hq : 0 ≤ q) :
    ∀ (splits : List (String × ℚ)) (l : List (String × SubScore)) (t : ℚ),
      (∀ cf ∈ splits, 0 ≤ cf.2) →
      techLoop q data splits = Except.ok (l, t) →
      t ≤ 8 / 10 * ((splits.map (fun cf => ((pyTrunc (q * cf.2) : ℤ) : ℚ))).sum)
        ∧ 0 ≤ t := by
  intro splits
  induction splits with
  | nil =>
    intro l t _ h
    have ht : t = 0 := by
      have := h.symm
      simp only [techLoop] at this
      exact (Prod.mk.injEq _ _ _ _ |>.mp (Except.ok.inj this)).2
    subst ht
    simp
  | cons cf rest ih =>
    intro l t hfr h
    rcases cf with ⟨c, frac⟩
    simp only [techLoop] at h
    rcases hc : techCond data c with e | b
    · rw [hc] at h; exact absurd h (by simp)
    · rw [hc] at h
      dsimp only at h
      rcases hr : techLoop q data rest with e | lt
      · rw [hr] at h; exact absurd h (by simp)
      · rcases lt with ⟨l2, t2⟩
        rw [hr] at h
        dsimp only at h
        have ht : t = (if b then (8 : ℚ) / 10 else 3 / 10) * ((pyTrunc (q * frac) : ℤ) : ℚ) + t2 := by
          exact ((Prod.mk.injEq _ _ _ _ |>.mp (Except.ok.inj h)).2).symm
        have hqf : 0 ≤ q * frac := mul_nonneg hq (hfr (c, frac) (by simp))
        have hp : (0 : ℚ) ≤ ((pyTrunc (q * frac) : ℤ) : ℚ) := by
          rw [pyTrunc_eq_floor _ hqf]
          exact_mod_cast Int.floor_nonneg.mpr hqf
        have hrec := ih l2 t2 (fun cf2 hcf2 => hfr cf2 (by simp [hcf2])) hr
        have hsc : (if b then (8 : ℚ) / 10 else 3 / 10) * ((pyTrunc (q * frac) : ℤ) : ℚ)
            ≤ 8 / 10 * ((pyTrunc (q * frac) : ℤ) : ℚ) := by
          split_ifs <;> linarith
        have hsc0 : 0 ≤ (if b then (8 : ℚ) / 10 else 3 / 10) * ((pyTrunc (q * frac) : ℤ) : ℚ) := by
          split_ifs <;> linarith
        constructor
        · simp only [List.map_cons, List.sum_cons, ht]
          linarith [hrec.1]
        · rw [ht]
          linarith [hrec.2]

theorem score_default_success_bound (fs : List (String × JVal))
    (h : (score_single_vendor defaultScorecard fs).status = "success") :
    (score_single_vendor defaultScorecard fs).overall_percentage ≤ 749 / 10 ∧
    (score_single_vendor defaultScorecard fs).grade = "C" := by
  rcases hT : techLoop 35 ((lookupJ "technical_data" fs).getD (JVal.obj [])) subSplits with e | lt
  · exfalso
    have hse : (score_single_vendor defaultScorecard fs).status = "error" := by
      unfold score_single_vendor
      dsimp only
      rw [scoreInner_default_err fs e hT]
    rw [hse] at h
    exact absurd h (by decide)
  · rcases lt with ⟨l, t⟩
    have hsum : ((subSplits.map (fun cf => ((pyTrunc ((35 : ℚ) * cf.2) : ℤ) : ℚ))).sum) = 33 := by
      decide
    have hfr : ∀ cf ∈ subSplits, (0 : ℚ) ≤ cf.2 := by decide
    have hb := techLoop_bound 35 ((lookupJ "technical_data" fs).getD (JVal.obj []))
      (by norm_num) subSplits l t hfr hT
    rw [hsum] at hb
    have ht : t ≤ 264 / 10 := by linarith [hb.1]
    have hI := scoreInner_default_ok fs l t hT
    have hrec : score_single_vendor defaultScorecard fs
        = ⟨(lookupJ "vendor_name" fs).getD (JVal.str "Unknown"), "success", none,
           round2 (t + 35 / 2 + 15 + 16), 100,
           round2 (if (0 : ℚ) < 100 then (t + 35 / 2 + 15 + 16) / 100 * 100 else 0),
           pyGrade (if (0 : ℚ) < 100 then (t + 35 / 2 + 15 + 16) / 100 * 100 else 0),
           some (⟨l, t, 35, t / 35 * 100⟩, ⟨[], 35 / 2, 25, 70⟩,
             ⟨[], 15, 20, 75⟩, ⟨[], 16, 20, 80⟩)⟩ := by
      unfold score_single_vendor
      dsimp only
      rw [hI]
      norm_num
    rw [hrec]
    have hpct : (if (0 : ℚ) < 100 then (t + 35 / 2 + 15 + 16) / 100 * 100 else 0)
        = t + 35 / 2 + 15 + 16 := by
      rw [if_pos (by norm_num : (0 : ℚ) < 100)]
      field_simp
      ring
    constructor
    · show round2 (if (0 : ℚ) < 100 then (t + 35 / 2 + 15 + 16) / 100 * 100 else 0) ≤ 749 / 10
      rw [hpct]
      calc round2 (t + 35 / 2 + 15 + 16) ≤ round2 (749 / 10) := round2_mono (by linarith)
        _ = 749 / 10 := by decide
    · show pyGrade (if (0 : ℚ) < 100 then (t + 35 / 2 + 15 + 16) / 100 * 100 else 0) = "C"
      rw [hpct]
      unfold pyGrade
      rw [if_neg (by linarith), if_neg (by linarith)]

/-! ## Claim theorems -/

theorem pyTrunc_cast_le (x : ℚ) (h : 0 ≤ x) : ((pyTrunc x : ℤ) : ℚ) ≤ x := by
  rw [pyTrunc_eq_floor x h]
  exact Int.floor_le x

theorem pyTrunc_cast_nonneg (x : ℚ) (h : 0 ≤ x) : 0 ≤ ((pyTrunc x : ℤ) : ℚ) := by
  rw [pyTrunc_eq_floor x h]
  exact_mod_cast Int.floor_nonneg.mpr h

/-- Claim C1, counterexample.  The claim asserts that every category scorer
returns category_percentage 0 with no division fault when total_possible
is 0, in particular the cost scorer.  In the code the cost scorer divides
by `points` with no zero guard, so a rubric fragment with points = 0
raises ZeroDivisionError instead of returning a result. -/
theorem c1_counterexample :
    calculate_financial_score (JVal.obj [("points", JVal.num 0)]) (JVal.obj []) (JVal.str "V")
      = Except.error "ZeroDivisionError: float division by zero" := rfl

/-- Claim C1, amended.  The technical scorer satisfies the invariant
`0 ≤ total_earned ≤ total_possible` for every nonnegative points value and
computes `category_percentage` with a zero guard.  The cost,
vendor-experience and implementation scorers satisfy the invariant with an
unguarded percentage formula whenever points is positive, but raise a
division fault when the rubric fragment carries points = 0 (the fault is
caught by the per-vendor aggregator, which marks the vendor as failed). -/
theorem c1_amended :
    (∀ (q : ℚ) (fs : List (String × JVal)) (vn : JVal) (r : CatResult),
        0 ≤ q →
        calculate_technical_score (JVal.obj [("points", JVal.num q)]) (JVal.obj fs) vn
          = Except.ok r →
        0 ≤ r.total_earned ∧ r.total_earned ≤ r.total_possible ∧
          r.category_percentage
            = (if 0 < r.total_possible then r.total_earned / r.total_possible * 100 else 0))
    ∧ (∀ (q : ℚ) (d vn : JVal) (r : CatResult),
        0 < q →
        calculate_financial_score (JVal.obj [("points", JVal.num q)]) d vn = Except.ok r →
        0 ≤ r.total_earned ∧ r.total_earned ≤ r.total_possible ∧
          r.category_percentage = r.total_earned / r.total_possible * 100)
    ∧ (∀ (q : ℚ) (d vn : JVal) (r : CatResult),
        0 < q →
        calculate_vendor_experience_score (JVal.obj [("points", JVal.num q)]) d vn = Except.ok r →
        0 ≤ r.total_earned ∧ r.total_earned ≤ r.total_possible ∧
          r.category_percentage = r.total_earned / r.total_possible * 100)
    ∧ (∀ (q : ℚ) (d vn : JVal) (r : CatResult),
        0 < q →
        calculate_implementation_score (JVal.obj [("points", JVal.num q)]) d vn = Except.ok r →
        0 ≤ r.total_earned ∧ r.total_earned ≤ r.total_possible ∧
          r.category_percentage = r.total_earned / r.total_possible * 100)
    ∧ (∀ d vn : JVal, calculate_financial_score (JVal.obj [("points", JVal.num 0)]) d vn
        = Except.error "ZeroDivisionError: float division by zero")
    ∧ (∀ d vn : JVal, calculate_vendor_experience_score (JVal.obj [("points", JVal.num 0)]) d vn
        = Except.error "ZeroDivisionError: float division by zero")
    ∧ (∀ d vn : JVal, calculate_implementation_score (JVal.obj [("points", JVal.num 0)]) d vn
        = Except.error "ZeroDivisionError: float division by zero") := by
  refine ⟨?_, ?_, ?_, ?_, ?_, ?_, ?_⟩
  · intro q fs vn r hq hr
    rw [calculate_technical_score_eval (JVal.obj [("points", JVal.num q)]) q rfl fs vn] at hr
    have hre := Except.ok.inj hr
    subst hre
    have hfr : ∀ cf ∈ subSplits, (0 : ℚ) ≤ cf.2 := by decide
    have hb := techLoop_bound q (JVal.obj fs) hq subSplits _ _ hfr (techLoop_obj q fs subSplits)
    have h1 : 0 ≤ q * (3 / 10) := by linarith
    have h3 : 0 ≤ q * (1 / 4) := by linarith
    have h4 : 0 ≤ q * (3 / 20) := by linarith
    have hsum_le : ((subSplits.map (fun cf => ((pyTrunc (q * cf.2) : ℤ) : ℚ))).sum) ≤ q := by
      simp only [subSplits, List.map_cons, List.map_nil, List.sum_cons, List.sum_nil]
      have a1 := pyTrunc_cast_le (q * (3 / 10)) h1
      have a3 := pyTrunc_cast_le (q * (1 / 4)) h3
      have a4 := pyTrunc_cast_le (q * (3 / 20)) h4
      linarith
    have hsum_nonneg : 0 ≤ ((subSplits.map (fun cf => ((pyTrunc (q * cf.2) : ℤ) : ℚ))).sum) := by
      simp only [subSplits, List.map_cons, List.map_nil, List.sum_cons, List.sum_nil]
      have a1 := pyTrunc_cast_nonneg (q * (3 / 10)) h1
      have a3 := pyTrunc_cast_nonneg (q * (1 / 4)) h3
      have a4 := pyTrunc_cast_nonneg (q * (3 / 20)) h4
      linarith
    exact ⟨hb.2, by dsimp only; linarith [hb.1], rfl⟩
  · intro q d vn r hq hr
    rw [calculate_financial_score_eval (JVal.obj [("points", JVal.num q)]) q rfl (ne_of_gt hq) d vn] at hr
    have hre := Except.ok.inj hr
    subst hre
    exact ⟨by dsimp only; linarith, by dsimp only; linarith, rfl⟩
  · intro q d vn r hq hr
    rw [calculate_vendor_experience_score_eval (JVal.obj [("points", JVal.num q)]) q rfl
      (ne_of_gt hq) d vn] at hr
    have hre := Except.ok.inj hr
    subst hre
    exact ⟨by dsimp only; linarith, by dsimp only; linarith, rfl⟩
  · intro q d vn r hq hr
    rw [calculate_implementation_score_eval (JVal.obj [("points", JVal.num q)]) q rfl
      (ne_of_gt hq) d vn] at hr
    have hre := Except.ok.inj hr
    subst hre
    exact ⟨by dsimp only; linarith, by dsimp only; linarith, rfl⟩
  · intro d vn
    exact calculate_financial_score_zero (JVal.obj [("points", JVal.num 0)]) rfl d vn
  · intro d vn
    exact calculate_vendor_experience_score_zero (JVal.obj [("points", JVal.num 0)]) rfl d vn
  · intro d vn
    exact calculate_implementation_score_zero (JVal.obj [("points", JVal.num 0)]) rfl d vn

/-- Claim C1, witness for the amended theorem: the cost scorer at
points = 25 satisfies the invariant with earned 17.5 and percentage 70. -/
theorem c1_witness :
    (0 : ℚ) < 25 ∧
    calculate_financial_score (JVal.obj [("points", JVal.num 25)]) (JVal.obj []) (JVal.str "V")
      = Except.ok ⟨[], 35 / 2, 25, 70⟩ ∧
    (0 ≤ (⟨[], 35 / 2, 25, 70⟩ : CatResult).total_earned ∧
      (⟨[], 35 / 2, 25, 70⟩ : CatResult).total_earned
        ≤ (⟨[], 35 / 2, 25, 70⟩ : CatResult).total_possible ∧
      (⟨[], 35 / 2, 25, 70⟩ : CatResult).category_percentage
        = (⟨[], 35 / 2, 25, 70⟩ : CatResult).total_earned
            / (⟨[], 35 / 2, 25, 70⟩ : CatResult).total_possible * 100) := by
  have hEq : calculate_financial_score (JVal.obj [("points", JVal.num 25)]) (JVal.obj [])
      (JVal.str "V") = Except.ok ⟨[], 35 / 2, 25, 70⟩ := by
    rw [calculate_financial_score_eval (JVal.obj [("points", JVal.num 25)]) 25 rfl
      (by norm_num) (JVal.obj []) (JVal.str "V")]
    norm_num
  exact ⟨by norm_num, hEq,
    c1_amended.2.1 25 (JVal.obj []) (JVal.str "V") ⟨[], 35 / 2, 25, 70⟩ (by norm_num) hEq⟩

/-! ## Claim C2: the four-category guarantee of the rubric normalizer -/

/-- The four canonical category names. -/
def canonicalKeys : List String :=
  ["technical_capability", "cost_effectiveness", "vendor_experience", "implementation_approach"]

/-- Does a category value carry a points entry. -/
def hasPointsEntry (v : JVal) : Bool :=
  match v with
  | JVal.obj f2 => hasKeyB f2 "points"
  | _ => false

/-- Does a rubric contain all four canonical categories, each with points. -/
def allFourWithPoints (fs : List (String × JVal)) : Bool :=
  canonicalKeys.all (fun k =>
    match lookupJ k fs with
    | some v => hasPointsEntry v
    | none => false)

/-- A category value the direct branch keeps verbatim without being able to
test or inject points into it: a string or list that itself mentions
points. -/
def keptBad : Option JVal → Bool
  | some (JVal.str s) => strContains s "points"
  | some (JVal.arr l) => jStrMem l "points"
  | _ => false

/-- The inputs on which the direct branch yields a full four-category
rubric: no list-valued criteria entry (which would divert to the
criteria-list branch), and no kept-verbatim category value. -/
def directGood (fs : List (String × JVal)) : Bool :=
  (match lookupJ "criteria" fs with
   | some (JVal.arr _) => false
   | _ => true)
  && canonicalKeys.all (fun k => !keptBad (lookupJ k fs))

/-- The rubric inputs for which the normalizer is guaranteed to produce all
four canonical categories: everything except a JSON object whose
(possibly unwrapped) payload takes the criteria-list branch or keeps a
bad category value verbatim. -/
def goodRubricInput : Option (List (String × JVal)) → Bool
  | none => true
  | some fs0 =>
    match lookupJ "scorecard_template" fs0 with
    | some (JVal.obj fs) => directGood fs
    | some _ => true
    | none => directGood fs0

theorem directEntry_good (fs : List (String × JVal)) (k : String) (dflt : ℚ)
    (k2 : String) (v : JVal) (hkb : keptBad (lookupJ k fs) = false)
    (h : directEntry fs k dflt = Except.ok (k2, v)) :
    k2 = k ∧ hasPointsEntry v = true := by
  unfold directEntry at h
  rcases hl : lookupJ k fs with _ | w
  · rw [hl] at h
    dsimp only at h
    obtain ⟨rfl, rfl⟩ := Prod.ext_iff.mp (Except.ok.inj h)
    exact ⟨rfl, by simp [hasPointsEntry, hasKeyB]⟩
  · rw [hl] at hkb
    cases w with
    | obj f2 =>
      rw [hl] at h
      dsimp only at h
      obtain ⟨rfl, rfl⟩ := Prod.ext_iff.mp (Except.ok.inj h)
      refine ⟨rfl, ?_⟩
      by_cases hp : hasKeyB f2 "points"
      · simp [hasPointsEntry, hp]
      · simp only [hasPointsEntry, hp, Bool.false_eq_true, if_false]
        simp [hasKeyB]
    | str s =>
      rw [hl] at h
      dsimp only at h
      simp only [keptBad] at hkb
      rw [hkb] at h
      exact absurd h (by simp)
    | arr l2 =>
      rw [hl] at h
      dsimp only at h
      simp only [keptBad] at hkb
      rw [hkb] at h
      exact absurd h (by simp)
    | null => rw [hl] at h; exact absurd h (by simp)
    | bool b => rw [hl] at h; exact absurd h (by simp)
    | num q => rw [hl] at h; exact absurd h (by simp)

theorem directBranch_good (fs : List (String × JVal)) (hg : directGood fs = true) :
    allFourWithPoints
      (match dispatchShape fs with
        | Except.ok r => r
        | Except.error _ => minimalScorecard) = true := by
  unfold directGood at hg
  rw [Bool.and_eq_true] at hg
  obtain ⟨hgc, hgk⟩ := hg
  have hks := List.all_eq_true.mp hgk
  have hds : dispatchShape fs = directBranch fs := by
    unfold dispatchShape
    rcases hc : lookupJ "criteria" fs with _ | w
    · rfl
    · rw [hc] at hgc
      cases w with
      | arr l => exact absurd hgc (by simp)
      | null => rfl
      | bool b => rfl
      | num q => rfl
      | str s => rfl
      | obj f2 => rfl
  rw [hds]
  rcases hd : directBranch fs with e | l
  · dsimp only
    decide
  · unfold directBranch at hd
    rcases h1 : directEntry fs "technical_capability" 35 with e | ⟨k1, v1⟩
    · rw [h1] at hd; exact absurd hd (by simp)
    · rw [h1] at hd
      dsimp only at hd
      rcases h2 : directEntry fs "cost_effectiveness" 25 with e | ⟨k2, v2⟩
      · rw [h2] at hd; exact absurd hd (by simp)
      · rw [h2] at hd
        dsimp only at hd
        rcases h3 : directEntry fs "vendor_experience" 20 with e | ⟨k3, v3⟩
        · rw [h3] at hd; exact absurd hd (by simp)
        · rw [h3] at hd
          dsimp only at hd
          rcases h4 : directEntry fs "implementation_approach" 20 with e | ⟨k4, v4⟩
          · rw [h4] at hd; exact absurd hd (by simp)
          · rw [h4] at hd
            dsimp only at hd
            obtain rfl := (Except.ok.inj hd)
            have kb1 : keptBad (lookupJ "technical_capability" fs) = false := by
              have := hks "technical_capability" (by decide)
              simpa using this
            have kb2 : keptBad (lookupJ "cost_effectiveness" fs) = false := by
              have := hks "cost_effectiveness" (by decide)
              simpa using this
            have kb3 : keptBad (lookupJ "vendor_experience" fs) = false := by
              have := hks "vendor_experience" (by decide)
              simpa using this
            have kb4 : keptBad (lookupJ "implementation_approach" fs) = false := by
              have := hks "implementation_approach" (by decide)
              simpa using this
            obtain ⟨rfl, hv1⟩ := directEntry_good fs "technical_capability" 35 k1 v1 kb1 h1
            obtain ⟨rfl, hv2⟩ := directEntry_good fs "cost_effectiveness" 25 k2 v2 kb2 h2
            obtain ⟨rfl, hv3⟩ := directEntry_good fs "vendor_experience" 20 k3 v3 kb3 h3
            obtain ⟨rfl, hv4⟩ := directEntry_good fs "implementation_approach" 20 k4 v4 kb4 h4
            simp [allFourWithPoints, canonicalKeys, lookupJ, hv1, hv2, hv3, hv4]

/-- Claim C2, counterexample.  The claim asserts the normalizer always
returns a rubric containing all four canonical categories, including for
a JSON object whose criteria list does not mention all four.  A criteria
list mentioning only a technical criterion yields a rubric with only
technical_capability: cost_effectiveness (and the other two) are absent. -/
theorem c2_counterexample :
    parse_scorecard_from_llm
        (some [("criteria", JVal.arr
          [JVal.obj [("name", JVal.str "Technical Evaluation"), ("weight", JVal.num 40)]])])
      = [("technical_capability", JVal.obj [("points", JVal.num 40), ("criteria", JVal.obj [])])]
    ∧ lookupJ "cost_effectiveness"
        (parse_scorecard_from_llm
          (some [("criteria", JVal.arr
            [JVal.obj [("name", JVal.str "Technical Evaluation"), ("weight", JVal.num 40)]])]))
      = none := ⟨rfl, rfl⟩

/-- Claim C2, amended.  The normalizer always returns without raising (it
is a total function, every internal exception being caught with the
minimal four-category fallback), and its result contains all four
canonical categories each with a points value whenever the input is not a
JSON object whose (possibly unwrapped) payload either carries a
list-valued criteria entry — that branch emits only the categories named
in the list — or maps a canonical category to a string or list kept
verbatim.  Non-JSON input gets the full default 35/25/20/20 scorecard. -/
theorem c2_amended :
    ∀ input : Option (List (String × JVal)),
      goodRubricInput input = true →
      allFourWithPoints (parse_scorecard_from_llm input) = true := by
  intro input hg
  cases input with
  | none => decide
  | some fs0 =>
    unfold parse_scorecard_from_llm normalize_scorecard_structure
    unfold goodRubricInput at hg
    dsimp only at hg ⊢
    rcases hw : lookupJ "scorecard_template" fs0 with _ | w
    · rw [hw] at hg
      dsimp only at hg ⊢
      exact directBranch_good fs0 hg
    · rw [hw] at hg
      cases w with
      | obj fs =>
        dsimp only at hg ⊢
        exact directBranch_good fs hg
      | str s =>
        dsimp only
        unfold normalizeStrCase
        split_ifs <;> (dsimp only; decide)
      | arr l =>
        dsimp only
        unfold normalizeArrCase
        split_ifs <;> (dsimp only; decide)
      | null => dsimp only; decide
      | bool b => dsimp only; decide
      | num q => dsimp only; decide

/-- Claim C2, witness for the amended theorem: a flat JSON rubric giving
only technical_capability 40 points is completed to all four categories. -/
theorem c2_witness :
    goodRubricInput (some [("technical_capability", JVal.obj [("points", JVal.num 40)])]) = true
    ∧ allFourWithPoints (parse_scorecard_from_llm
        (some [("technical_capability", JVal.obj [("points", JVal.num 40)])])) = true :=
  ⟨rfl, c2_amended (some [("technical_capability", JVal.obj [("points", JVal.num 40)])]) rfl⟩

/-! ## Claim C3: the technical detector sets -/

/-- The earned points recorded for one sub-criterion of a scorer result. -/
def earnedOf (res : Except String CatResult) (c : String) : Option ℚ :=
  match res with
  | Except.ok r => (r.category_scores.find? (fun p => p.1 == c)).map (fun p => p.2.earned_points)
  | Except.error _ => none

/-- Claim C3.  For every technical sub-criterion and every dict feature
bucket, the technical scorer awards 0.8 of the sub-criterion maximum
exactly when the bucket contains a key of that sub-criterion detector set
(its own name plus the six shared signal keys), and 0.3 of the maximum
otherwise; the sub-criterion maximum is the truncated fraction of the
category points.  In particular a vendor whose technical_data is exactly
the single entry uptime_sla scores every sub-criterion at the 0.8 tier,
since uptime_sla belongs to every detector set, and no sub-criterion is
without a matching signal. -/
theorem c3_technical_detectors :
    (∀ (q : ℚ) (fs : List (String × JVal)) (vn : JVal) (c : String) (frac : ℚ),
      (c, frac) ∈ subSplits →
      earnedOf (calculate_technical_score (JVal.obj [("points", JVal.num q)]) (JVal.obj fs) vn) c
        = some ((if (detectorSet c).any (hasKeyB fs) then (8 : ℚ) / 10 else 3 / 10)
            * ((pyTrunc (q * frac) : ℤ) : ℚ)))
    ∧ (earnedOf (calculate_technical_score (JVal.obj [("points", JVal.num 35)])
          (JVal.obj [("uptime_sla", JVal.str "99.9%")]) (JVal.str "V")) "solution_architecture"
        = some 8
      ∧ earnedOf (calculate_technical_score (JVal.obj [("points", JVal.num 35)])
          (JVal.obj [("uptime_sla", JVal.str "99.9%")]) (JVal.str "V")) "security_compliance"
        = some 8
      ∧ earnedOf (calculate_technical_score (JVal.obj [("points", JVal.num 35)])
          (JVal.obj [("uptime_sla", JVal.str "99.9%")]) (JVal.str "V")) "performance_sla"
        = some (32 / 5)
      ∧ earnedOf (calculate_technical_score (JVal.obj [("points", JVal.num 35)])
          (JVal.obj [("uptime_sla", JVal.str "99.9%")]) (JVal.str "V")) "scalability"
        = some 4) := by
  constructor
  · intro q fs vn c frac hm
    rw [calculate_technical_score_eval (JVal.obj [("points", JVal.num q)]) q rfl fs vn]
    unfold earnedOf
    fin_cases hm <;>
      simp [subSplits, techSub, techTier, hasTechSignal, List.find?]
  · refine ⟨?_, ?_, ?_, ?_⟩ <;> decide

/-- Claim C3, witness: the solution_architecture sub-criterion on the
uptime-only bucket, with its detector-set condition spelled out. -/
theorem c3_witness :
    (("solution_architecture", (3 : ℚ) / 10) ∈ subSplits) ∧
    earnedOf (calculate_technical_score (JVal.obj [("points", JVal.num 35)])
        (JVal.obj [("uptime_sla", JVal.str "99.9%")]) (JVal.str "V")) "solution_architecture"
      = some ((if (detectorSet "solution_architecture").any
            (hasKeyB [("uptime_sla", JVal.str "99.9%")]) then (8 : ℚ) / 10 else 3 / 10)
          * ((pyTrunc ((35 : ℚ) * (3 / 10)) : ℤ) : ℚ)) :=
  ⟨by decide,
   c3_technical_detectors.1 35 [("uptime_sla", JVal.str "99.9%")] (JVal.str "V")
     "solution_architecture" (3 / 10) (by decide)⟩

/-! ## Claim C4: ranking -/

/-- Claim C4.  The ranking step keeps only status-success vendors, orders
them by a stable descending sort on total_score (the sort preserves, for
every score value, the input order of the vendors carrying it, is
pairwise descending, and permutes its input), and the winner fields of
the assembled result are the head of that sorted list.  The concrete
conjunct runs the engine on two vendors with identical scores (an exact
tie at 58.4 under the default scorecard) and the first input vendor,
Alpha, is returned as recommended_vendor. -/
theorem c4_ranking :
    (∀ (l : List VendorScoreR) (q : ℚ),
      (sortDesc l).filter (fun v => v.total_score == q)
        = l.filter (fun v => v.total_score == q))
    ∧ (∀ l : List VendorScoreR,
      List.Pairwise (fun a b => b.total_score ≤ a.total_score) (sortDesc l))
    ∧ (∀ (l : List VendorScoreR) (a : VendorScoreR), a ∈ sortDesc l ↔ a ∈ l)
    ∧ (∀ (sc : List (String × JVal)) (scores : List VendorScoreR) (tpp : ℚ),
      (buildResult sc scores tpp).executive_summary.recommended_vendor
        = (match (sortDesc (successFilter scores)).head? with
          | none => JVal.str "No winner"
          | some w => w.vendor_name)
      ∧ (buildResult sc scores tpp).winner
        = (match (sortDesc (successFilter scores)).head? with
          | none => JVal.str "None"
          | some w => w.vendor_name))
    ∧ (recommendedOf (Sxoring_Engine none (VendorPayload.pdict [("vendors", JVal.arr
          [JVal.obj [("vendor_name", JVal.str "Alpha")],
           JVal.obj [("vendor_name", JVal.str "Beta")]])]))
        = some (JVal.str "Alpha")
      ∧ (vendorScoresOf (Sxoring_Engine none (VendorPayload.pdict [("vendors", JVal.arr
          [JVal.obj [("vendor_name", JVal.str "Alpha")],
           JVal.obj [("vendor_name", JVal.str "Beta")]])]))).map (fun v => v.total_score)
        = [292 / 5, 292 / 5]) := by
  refine ⟨sortDesc_filter_key, pairwise_sortDesc, fun l a => mem_sortDesc a l, ?_, ?_, ?_⟩
  · intro sc scores tpp
    constructor
    · rw [buildResult_exec]
      cases hx : (sortDesc (successFilter scores)).head? <;> rfl
    · exact buildResult_winner sc scores tpp
  · rfl
  · rfl

/-! ## Claim C5: vendor aggregation and grades -/

/-- Claim C5.  For every successfully scored vendor the recorded
total_score is the sum of the four category total_earned values rounded
to 2 decimals, and the grade is computed from the raw overall percentage
with thresholds A at 90 and B at 80 (boundary values: 90 gives A, 89.99
gives B, 80 gives B, 79.99 gives C); the grade F appears exactly when the
category computation threw and the vendor record carries status error. -/
theorem c5_aggregation :
    (∀ sc fs : List (String × JVal),
      (score_single_vendor sc fs).status = "success" →
      ∃ t f ex im : CatResult,
        (score_single_vendor sc fs).category_breakdown = some (t, f, ex, im) ∧
        (score_single_vendor sc fs).total_score
          = round2 (t.total_earned + f.total_earned + ex.total_earned + im.total_earned) ∧
        (score_single_vendor sc fs).grade
          = pyGrade (if 0 < t.total_possible + f.total_possible + ex.total_possible
                + im.total_possible
              then (t.total_earned + f.total_earned + ex.total_earned + im.total_earned)
                / (t.total_possible + f.total_possible + ex.total_possible + im.total_possible)
                * 100
              else 0))
    ∧ (∀ sc fs : List (String × JVal),
      (score_single_vendor sc fs).grade = "F" ↔ (score_single_vendor sc fs).status = "error")
    ∧ pyGrade 90 = "A" ∧ pyGrade (8999 / 100) = "B" ∧ pyGrade 80 = "B"
    ∧ pyGrade (7999 / 100) = "C" := by
  have hgradeF : ∀ p : ℚ, pyGrade p ≠ "F" := by
    intro p
    unfold pyGrade
    split_ifs <;> decide
  refine ⟨?_, ?_, by decide, by decide, by decide, by decide⟩
  · intro sc fs h
    rcases hI : scoreInner sc fs with e | ⟨t, f, ex, im⟩
    · have hrec : score_single_vendor sc fs
          = ⟨(lookupJ "vendor_name" fs).getD (JVal.str "Unknown"), "error",
             some ("Scoring failed: " ++ e), 0, 100, 0, "F", none⟩ := by
        unfold score_single_vendor
        dsimp only
        rw [hI]
      rw [hrec] at h
      exact absurd h (by simp)
    · have hrec : score_single_vendor sc fs
          = ⟨(lookupJ "vendor_name" fs).getD (JVal.str "Unknown"), "success", none,
             round2 (t.total_earned + f.total_earned + ex.total_earned + im.total_earned),
             t.total_possible + f.total_possible + ex.total_possible + im.total_possible,
             round2 (if 0 < t.total_possible + f.total_possible + ex.total_possible
                  + im.total_possible
                then (t.total_earned + f.total_earned + ex.total_earned + im.total_earned)
                  / (t.total_possible + f.total_possible + ex.total_possible + im.total_possible)
                  * 100
                else 0),
             pyGrade (if 0 < t.total_possible + f.total_possible + ex.total_possible
                  + im.total_possible
                then (t.total_earned + f.total_earned + ex.total_earned + im.total_earned)
                  / (t.total_possible + f.total_possible + ex.total_possible + im.total_possible)
                  * 100
                else 0),
             some (t, f, ex, im)⟩ := by
        unfold score_single_vendor
        dsimp only
        rw [hI]
      rw [hrec]
      exact ⟨t, f, ex, im, rfl, rfl, rfl⟩
  · intro sc fs
    rcases hI : scoreInner sc fs with e | ⟨t, f, ex, im⟩
    · have hrec : score_single_vendor sc fs
          = ⟨(lookupJ "vendor_name" fs).getD (JVal.str "Unknown"), "error",
             some ("Scoring failed: " ++ e), 0, 100, 0, "F", none⟩ := by
        unfold score_single_vendor
        dsimp only
        rw [hI]
      rw [hrec]
      exact ⟨fun _ => rfl, fun _ => rfl⟩
    · have hrec : score_single_vendor sc fs
          = ⟨(lookupJ "vendor_name" fs).getD (JVal.str "Unknown"), "success", none,
             round2 (t.total_earned + f.total_earned + ex.total_earned + im.total_earned),
             t.total_possible + f.total_possible + ex.total_possible + im.total_possible,
             round2 (if 0 < t.total_possible + f.total_possible + ex.total_possible
                  + im.total_possible
                then (t.total_earned + f.total_earned + ex.total_earned + im.total_earned)
                  / (t.total_possible + f.total_possible + ex.total_possible + im.total_possible)
                  * 100
                else 0),
             pyGrade (if 0 < t.total_possible + f.total_possible + ex.total_possible
                  + im.total_possible
                then (t.total_earned + f.total_earned + ex.total_earned + im.total_earned)
                  / (t.total_possible + f.total_possible + ex.total_possible + im.total_possible)
                  * 100
                else 0),
             some (t, f, ex, im)⟩ := by
        unfold score_single_vendor
        dsimp only
        rw [hI]
      rw [hrec]
      constructor
      · intro hF
        exact absurd hF (hgradeF _)
      · intro hS
        exact absurd hS (by simp)

/-- Claim C5, witness: an empty vendor under the minimal scorecard scores
successfully and the aggregation equations hold for it. -/
theorem c5_witness :
    (score_single_vendor minimalScorecard []).status = "success" ∧
    (∃ t f ex im : CatResult,
      (score_single_vendor minimalScorecard []).category_breakdown = some (t, f, ex, im) ∧
      (score_single_vendor minimalScorecard []).total_score
        = round2 (t.total_earned + f.total_earned + ex.total_earned + im.total_earned) ∧
      (score_single_vendor minimalScorecard []).grade
        = pyGrade (if 0 < t.total_possible + f.total_possible + ex.total_possible
              + im.total_possible
            then (t.total_earned + f.total_earned + ex.total_earned + im.total_earned)
              / (t.total_possible + f.total_possible + ex.total_possible + im.total_possible)
              * 100
            else 0)) :=
  ⟨rfl, c5_aggregation.1 minimalScorecard [] rfl⟩

/-! ## Claim C6: the mock-data substitution -/

/-- Claim C6, counterexample.  The claim asserts that the substitution of
the fixed two-vendor reference dataset is flagged in the run output
metadata so it is distinguishable from a run on real data.  In the code
the flag is only a console print: the returned dictionary of a run on an
empty payload is identical, field for field, to the returned dictionary
of a run whose real payload is the mock dataset itself, so no output
field records the substitution. -/
theorem c6_counterexample :
    Sxoring_Engine none VendorPayload.empty
      = Sxoring_Engine none (VendorPayload.pdict create_mock_vendor_data) := rfl

/-- Claim C6, amended.  An empty vendor payload, and a payload whose
structured parsing fails, are both substituted by the fixed two-vendor
mock dataset and still produce a complete success assessment scoring
Cyberguard and SecureNet; but the substitution is flagged only on the
console, not in the returned metadata: the returned value is identical
to that of a run on the mock data supplied as real input. -/
theorem c6_amended :
    statusOf (Sxoring_Engine none VendorPayload.empty) = "success"
    ∧ (vendorScoresOf (Sxoring_Engine none VendorPayload.empty)).map (fun v => v.vendor_name)
        = [JVal.str "Cyberguard", JVal.str "SecureNet"]
    ∧ (vendorScoresOf (Sxoring_Engine none VendorPayload.empty)).map (fun v => v.status)
        = ["success", "success"]
    ∧ Sxoring_Engine none (VendorPayload.jsonBad "unterminated object")
        = Sxoring_Engine none VendorPayload.empty
    ∧ Sxoring_Engine none VendorPayload.empty
        = Sxoring_Engine none (VendorPayload.pdict create_mock_vendor_data) :=
  ⟨rfl, rfl, rfl, rfl, rfl⟩

/-! ## Claim C7: the confidence label -/

/-- Claim C7, counterexample.  The claim asserts that when every vendor
has status error (no winner) the confidence_level is undefined or
omitted.  In the code the confidence expression falls through to the
string Medium when there is no winner: a run whose only vendor fails
scoring (cost category with 0 points raises ZeroDivisionError) returns a
present confidence_level equal to Medium. -/
theorem c7_counterexample :
    confidenceOf (Sxoring_Engine
        (some [("technical_capability", JVal.obj [("points", JVal.num 35)]),
               ("cost_effectiveness", JVal.obj [("points", JVal.num 0)]),
               ("vendor_experience", JVal.obj [("points", JVal.num 20)]),
               ("implementation_approach", JVal.obj [("points", JVal.num 20)])])
        (VendorPayload.pdict [("vendors", JVal.arr
          [JVal.obj [("vendor_name", JVal.str "VendorOne")]])]))
      = some "Medium"
    ∧ (vendorScoresOf (Sxoring_Engine
        (some [("technical_capability", JVal.obj [("points", JVal.num 35)]),
               ("cost_effectiveness", JVal.obj [("points", JVal.num 0)]),
               ("vendor_experience", JVal.obj [("points", JVal.num 20)]),
               ("implementation_approach", JVal.obj [("points", JVal.num 20)])])
        (VendorPayload.pdict [("vendors", JVal.arr
          [JVal.obj [("vendor_name", JVal.str "VendorOne")]])]))).map (fun v => v.status)
      = ["error"]
    ∧ (successFilter (vendorScoresOf (Sxoring_Engine
        (some [("technical_capability", JVal.obj [("points", JVal.num 35)]),
               ("cost_effectiveness", JVal.obj [("points", JVal.num 0)]),
               ("vendor_experience", JVal.obj [("points", JVal.num 20)]),
               ("implementation_approach", JVal.obj [("points", JVal.num 20)])])
        (VendorPayload.pdict [("vendors", JVal.arr
          [JVal.obj [("vendor_name", JVal.str "VendorOne")]])])))).isEmpty = true :=
  ⟨rfl, rfl, rfl⟩

/-- Claim C7, amended.  The confidence_level key is always present: it is
the string Medium when there is no winner, and when a winner exists it is
High exactly when the winner recorded overall_percentage is at least 80
and Medium otherwise. -/
theorem c7_amended :
    ∀ (sc : List (String × JVal)) (scores : List VendorScoreR) (tpp : ℚ),
      (buildResult sc scores tpp).executive_summary.confidence_level
        = (match (sortDesc (successFilter scores)).head? with
          | none => "Medium"
          | some w => if 80 ≤ w.overall_percentage then "High" else "Medium") := by
  intro sc scores tpp
  rw [buildResult_exec]
  cases hx : (sortDesc (successFilter scores)).head? <;> rfl

/-! ## Claim C8: per-vendor failure isolation -/

/-- Claim C8.  When the category computation for a vendor raises, the
vendor record produced is exactly status error, total_score 0, grade F,
with the descriptive Scoring-failed message; and the scoring loop is a
pointwise map: scoring a list with a vendor inserted yields the same
records for every other vendor as scoring the list without it. -/
theorem c8_isolation :
    (∀ (sc fs : List (String × JVal)) (e : String),
      scoreInner sc fs = Except.error e →
      score_single_vendor sc fs
        = ⟨(lookupJ "vendor_name" fs).getD (JVal.str "Unknown"), "error",
           some ("Scoring failed: " ++ e), 0, 100, 0, "F", none⟩)
    ∧ (∀ (sc : List (String × JVal)) (pre post : List JVal) (as bs : List VendorScoreR)
        (fs : List (String × JVal)),
      scoreVendorsList sc pre = Except.ok as →
      scoreVendorsList sc post = Except.ok bs →
      scoreVendorsList sc (pre ++ JVal.obj fs :: post)
        = Except.ok (as ++ score_single_vendor sc fs :: bs)) := by
  constructor
  · intro sc fs e h
    unfold score_single_vendor
    dsimp only
    rw [h]
  · intro sc pre post as bs fs hpre hpost
    exact scoreVendorsList_append sc pre post as bs fs hpre hpost

/-- Claim C8, witness: under the minimal scorecard, a vendor whose
technical_data is the number 5 raises a TypeError inside the technical
scorer; it gets the error record with grade F, and scoring it between
two healthy vendors leaves both their records exactly as in a run
without it. -/
theorem c8_witness :
    scoreInner minimalScorecard [("vendor_name", JVal.str "Broken"), ("technical_data", JVal.num 5)]
      = Except.error "TypeError: argument is not iterable"
    ∧ score_single_vendor minimalScorecard
        [("vendor_name", JVal.str "Broken"), ("technical_data", JVal.num 5)]
      = ⟨(lookupJ "vendor_name" [("vendor_name", JVal.str "Broken"),
            ("technical_data", JVal.num 5)]).getD (JVal.str "Unknown"), "error",
         some ("Scoring failed: " ++ "TypeError: argument is not iterable"), 0, 100, 0, "F", none⟩
    ∧ scoreVendorsList minimalScorecard [JVal.obj []]
        = Except.ok [score_single_vendor minimalScorecard []]
    ∧ scoreVendorsList minimalScorecard [JVal.obj [("vendor_name", JVal.str "Gamma")]]
        = Except.ok [score_single_vendor minimalScorecard [("vendor_name", JVal.str "Gamma")]]
    ∧ scoreVendorsList minimalScorecard
        ([JVal.obj []] ++ JVal.obj [("vendor_name", JVal.str "Broken"),
            ("technical_data", JVal.num 5)] :: [JVal.obj [("vendor_name", JVal.str "Gamma")]])
        = Except.ok ([score_single_vendor minimalScorecard []]
            ++ score_single_vendor minimalScorecard
                [("vendor_name", JVal.str "Broken"), ("technical_data", JVal.num 5)]
              :: [score_single_vendor minimalScorecard [("vendor_name", JVal.str "Gamma")]]) :=
  ⟨rfl,
   c8_isolation.1 minimalScorecard
     [("vendor_name", JVal.str "Broken"), ("technical_data", JVal.num 5)]
     "TypeError: argument is not iterable" rfl,
   rfl, rfl,
   c8_isolation.2 minimalScorecard [JVal.obj []] [JVal.obj [("vendor_name", JVal.str "Gamma")]]
     [score_single_vendor minimalScorecard []]
     [score_single_vendor minimalScorecard [("vendor_name", JVal.str "Gamma")]]
     [("vendor_name", JVal.str "Broken"), ("technical_data", JVal.num 5)] rfl rfl⟩

/-! ## Claim C9: the entry point always returns a status -/

/-- Claim C9.  For every pair of inputs the public entry point returns a
value (it is a total function: every modelled exception of the body is
caught by the outer handler), and that value carries a run-level status
equal to success or to error. -/
theorem c9_engine_status :
    ∀ (t : Option (List (String × JVal))) (d : VendorPayload),
      statusOf (Sxoring_Engine t d) = "success" ∨ statusOf (Sxoring_Engine t d) = "error" := by
  intro t d
  cases h : Sxoring_Engine t d
  · exact Or.inl rfl
  · exact Or.inr rfl

/-! ## Claim C10: the grade ceiling under the default rubric -/

/-- Claim C10.  Under the default rubric every vendor scored with status
success has recorded overall_percentage at most 74.9 (the technical
category earns at most 0.8 of its truncated sub-maxima 10, 10, 8 and 5,
and the other categories contribute the fixed 17.5, 15 and 16), so the
grade of every such vendor is C and the confidence_level of every
assessment built from a default-scorecard run is Medium. -/
theorem c10_default_cap :
    (∀ fs : List (String × JVal),
      (score_single_vendor defaultScorecard fs).status = "success" →
      (score_single_vendor defaultScorecard fs).overall_percentage ≤ 749 / 10 ∧
      (score_single_vendor defaultScorecard fs).grade = "C")
    ∧ (∀ (d : VendorPayload) (r : EngineOk),
      Sxoring_Engine none d = EngineResult.ok r →
      r.executive_summary.confidence_level = "Medium") := by
  refine ⟨score_default_success_bound, ?_⟩
  intro d r h
  have hb : engineBody defaultScorecard d = Except.ok r := Sxoring_Engine_ok none d r h
  obtain ⟨vl, scores, tpp, hsv, rfl⟩ := engineBody_ok defaultScorecard d r hb
  have hexec := buildResult_exec defaultScorecard scores tpp
  rcases hs : sortDesc (successFilter scores) with _ | ⟨w, rest⟩
  · rw [hexec, hs]
    rfl
  · rw [hexec, hs]
    show (if 80 ≤ w.overall_percentage then "High" else "Medium") = "Medium"
    have hwmem : w ∈ sortDesc (successFilter scores) := by
      rw [hs]; exact List.mem_cons_self _ _
    have hw2 : w ∈ successFilter scores := (mem_sortDesc w _).mp hwmem
    have hw3 := List.mem_filter.mp hw2
    obtain ⟨fs, rfl⟩ := scoreVendorsList_mem defaultScorecard vl scores hsv w hw3.1
    have hst : (score_single_vendor defaultScorecard fs).status = "success" :=
      beq_iff_eq.mp hw3.2
    have hbound := score_default_success_bound fs hst
    rw [if_neg]
    intro hc
    have := hbound.1
    linarith

/-- Claim C10, witness: a vendor with no data at all under the default
scorecard scores 58.4, grade C, and a default-scorecard run with an empty
vendor list yields an assessment whose confidence_level is Medium. -/
theorem c10_witness :
    ((score_single_vendor defaultScorecard []).status = "success"
      ∧ (score_single_vendor defaultScorecard []).overall_percentage ≤ 749 / 10
      ∧ (score_single_vendor defaultScorecard []).grade = "C")
    ∧ (Sxoring_Engine none (VendorPayload.pdict [("vendors", JVal.arr [])])
        = EngineResult.ok ⟨[], ⟨JVal.str "No winner", 0, 0, "Medium"⟩, defaultScorecard, 100,
            true, 0, JVal.str "None"⟩
      ∧ (⟨[], ⟨JVal.str "No winner", 0, 0, "Medium"⟩, defaultScorecard, 100,
            true, 0, JVal.str "None"⟩ : EngineOk).executive_summary.confidence_level
          = "Medium") := by
  have h1 : (score_single_vendor defaultScorecard []).status = "success" := rfl
  have h2 := c10_default_cap.1 [] h1
  have h3 : Sxoring_Engine none (VendorPayload.pdict [("vendors", JVal.arr [])])
      = EngineResult.ok ⟨[], ⟨JVal.str "No winner", 0, 0, "Medium"⟩, defaultScorecard, 100,
          true, 0, JVal.str "None"⟩ := rfl
  exact ⟨⟨h1, h2.1, h2.2⟩, h3,
    c10_default_cap.2 (VendorPayload.pdict [("vendors", JVal.arr [])]) _ h3⟩
